import Mathlib

/-!
Verification of the BearWithMe pronunciation-practice core.

The repository has two Python entry files, `main.py` and `main2.py`, each with
its own copy of the phoneme-to-speakable-text translator
(`azure_phoneme_to_text`), the threshold-based remediation logic and the
repeat-until-correct practice loop.  We embed the deterministic core of both
files: scores are modelled as rationals (the service reports numbers in
[0,100]), score mappings as association lists in arrival order (Python dicts
preserve insertion order), and `str.format` on the one-placeholder prompt
templates as textual substitution of each placeholder pair.
-/

/-- Substitute every placeholder pair (an open brace directly followed by a
close brace) in a character list by the argument, as Python does for
`template.format(arg)` on templates whose only braces form such pairs. -/
def substPlaceholders (arg : List Char) : List Char → List Char
  | [] => []
  | c1 :: c2 :: rest =>
    if c1 = '\x7b' ∧ c2 = '\x7d' then arg ++ substPlaceholders arg rest
    else c1 :: substPlaceholders arg (c2 :: rest)
  | [c] => [c]

/-- Python `template.format(arg)` for the prompt templates of this repo. -/
def pyFormat (template arg : String) : String :=
  String.mk (substPlaceholders arg.data template.data)

/-- One step of a practice loop body: either retry assessment at once with no
spoken output, or emit the spoken prompts of the round, `done` telling whether the
loop then terminates (no further assessment call) or re-assesses. -/
inductive LoopStep where
  | retry : LoopStep
  | feedback (prompts : List String) (done : Bool) : LoopStep
  deriving DecidableEq

/-- Python truthiness test `not phoneme_scores` on the assessment result:
true for `None` (no speech recognized) and for an empty score mapping. -/
def py_falsy (r : Option (List (String × ℚ))) : Bool :=
  match r with
  | none => true
  | some scores => scores.isEmpty

namespace Main

/-- `THRESHOLD = 80` of `main.py` (phoneme accuracy threshold). -/
def THRESHOLD : ℚ := 80

/-- The `PROMPTS` dict of `main.py`. -/
def PROMPTS : List (String × String) :=
  [("intro", "Let\x27s practice the word \x7b\x7d."),
   ("phoneme_practice", "Let\x27s practice the sound \x7b\x7d."),
   ("repeat_phoneme", "Your turn: \x7b\x7d"),
   ("whole_word", "Now try saying the whole word: \x7b\x7d"),
   ("success_phoneme", "Nice! Much better!"),
   ("all_correct", "Great job! You pronounced the word correctly!")]

/-- Access `PROMPTS[k]` (every access in the source uses a present key). -/
def prompt (k : String) : String := (PROMPTS.lookup k).getD ""

/-- The standard phoneme `mapping` table of `main.py`. -/
def mapping : List (String × String) :=
  [("aa", "ah"), ("ae", "uh"), ("ah", "uh"), ("ax", "uh"), ("ao", "aw"),
   ("aw", "ow"), ("ay", "eye"), ("b", "b"), ("ch", "ch"), ("d", "d"),
   ("dh", "th"), ("eh", "eh"), ("er", "er"), ("ey", "ay"), ("f", "f"),
   ("g", "g"), ("hh", "h"), ("ih", "ih"), ("iy", "ee"), ("jh", "j"),
   ("k", "k"), ("l", "l"), ("m", "m"), ("n", "n"), ("ng", "ng"),
   ("ow", "oh"), ("oy", "oy"), ("p", "p"), ("r", "r"), ("s", "s"),
   ("sh", "sh"), ("t", "t"), ("th", "th"), ("uh", "oo"), ("uw", "oo"),
   ("v", "v"), ("w", "w"), ("y", "y"), ("z", "z"), ("zh", "zh"),
   ("axr", "er")]

/-- The `single_letter_mapping` table of `main.py` (note `"h" -> "huh"`). -/
def single_letter_mapping : List (String × String) :=
  [("a", "ay"), ("b", "buh"), ("c", "cuh"), ("d", "duh"), ("e", "ee"),
   ("f", "fuh"), ("g", "guh"), ("h", "huh"), ("i", "eye"), ("j", "juh"),
   ("k", "kuh"), ("l", "luh"), ("m", "muh"), ("n", "nuh"), ("o", "oh"),
   ("p", "puh"), ("q", "koo"), ("r", "ruh"), ("s", "suh"), ("t", "tuh"),
   ("u", "oo"), ("v", "vuh"), ("w", "wuh"), ("x", "ex"), ("y", "yuh"),
   ("z", "zuh")]

/-- Line 209 of `main.py`: strip all digit characters and lower-case — the
join of every character c of the symbol with c.isdigit() false, lowered. -/
def base_of (phoneme : String) : String :=
  String.mk ((phoneme.data.filter (fun c => !c.isDigit)).map Char.toLower)

/-- `azure_phoneme_to_text` of `main.py` (lines 202-239): look the stripped
base up in the standard table with the base itself as fallback, then expand a
single-letter result through the single-letter table when it is a key there. -/
def azure_phoneme_to_text (phoneme : String) : String :=
  let base := base_of phoneme
  let text := (mapping.lookup base).getD base
  if text.length = 1 then
    match single_letter_mapping.lookup text with
    | some v => v
    | none => text
  else text

/-- Line 285 of `main.py`:
`low_scores = {ph: sc for ph, sc in phoneme_scores.items() if sc < THRESHOLD}`,
with the threshold abstracted as a parameter. -/
def low_scores (phoneme_scores : List (String × ℚ)) (threshold : ℚ) :
    List (String × ℚ) :=
  phoneme_scores.filter (fun p => p.2 < threshold)

/-- The spoken prompts of one feedback round together with whether the loop
body then breaks (word accepted) or falls through to the next assessment. -/
structure RoundResult where
  prompts : List String
  done : Bool
  deriving DecidableEq

/-- Lines 284-301 of `main.py`, the round body of `practice_word` once a
non-empty score mapping arrived: speak the single all-correct prompt and break
when no phoneme is low, otherwise drill every low phoneme in order
(practice prompt, your-turn prompt, encouragement) and then prompt the whole
word before the loop re-assesses. -/
def practice_round (target_word : String) (phoneme_scores : List (String × ℚ))
    (threshold : ℚ) : RoundResult :=
  let low := low_scores phoneme_scores threshold
  if low.isEmpty then
    ⟨[prompt "all_correct"], true⟩
  else
    let drills := low.foldl (fun acc p =>
      let readable := azure_phoneme_to_text p.1
      acc ++ [pyFormat (prompt "phoneme_practice") readable,
              pyFormat (prompt "repeat_phoneme") readable,
              prompt "success_phoneme"]) []
    ⟨drills ++ [pyFormat (prompt "whole_word") target_word], false⟩

/-- Lines 274-301 of `main.py`: one iteration of the `while True` loop of
`practice_word`, as a function of the assessment result.  A falsy result
(absent, or an empty mapping) retries immediately with no spoken output. -/
def practice_word_step (target_word : String) (threshold : ℚ)
    (r : Option (List (String × ℚ))) : LoopStep :=
  if py_falsy r then LoopStep.retry
  else
    let rr := practice_round target_word (r.getD []) threshold
    LoopStep.feedback rr.prompts rr.done

end Main

namespace Main2

/-- `THRESHOLD` of `main2.py`: read from the environment with default `"80"`;
modelled as a parameter in the loop functions, with this default. -/
def THRESHOLD : ℚ := 80

/-- The `PROMPTS` dict of `main2.py` (its retry prompt is a fixed stem and its
all-correct prompt differs from the one of `main.py`). -/
def PROMPTS : List (String × String) :=
  [("intro", "Let\x27s practice the word \x7b\x7d."),
   ("phoneme_practice", "Let\x27s practice the sound \x7b\x7d."),
   ("repeat_phoneme", "That\x27s not quite right, can you say "),
   ("success_phoneme", "Nice! Much better!"),
   ("all_correct", "Great job! You pronounced all the sounds correctly.")]

/-- Access `PROMPTS[k]` (every access in the source uses a present key). -/
def prompt (k : String) : String := (PROMPTS.lookup k).getD ""

/-- The standard phoneme `mapping` table of `main2.py` (lines 80-89),
character for character the table of `main.py`. -/
def mapping : List (String × String) :=
  [("aa", "ah"), ("ae", "uh"), ("ah", "uh"), ("ax", "uh"), ("ao", "aw"),
   ("aw", "ow"), ("ay", "eye"), ("b", "b"), ("ch", "ch"), ("d", "d"),
   ("dh", "th"), ("eh", "eh"), ("er", "er"), ("ey", "ay"), ("f", "f"),
   ("g", "g"), ("hh", "h"), ("ih", "ih"), ("iy", "ee"), ("jh", "j"),
   ("k", "k"), ("l", "l"), ("m", "m"), ("n", "n"), ("ng", "ng"),
   ("ow", "oh"), ("oy", "oy"), ("p", "p"), ("r", "r"), ("s", "s"),
   ("sh", "sh"), ("t", "t"), ("th", "th"), ("uh", "oo"), ("uw", "oo"),
   ("v", "v"), ("w", "w"), ("y", "y"), ("z", "z"), ("zh", "zh"),
   ("axr", "er")]

/-- The `single_letter_mapping` table of `main2.py` (note `"h" -> "heh"`,
where `main.py` has `"h" -> "huh"`; every other entry agrees). -/
def single_letter_mapping : List (String × String) :=
  [("a", "ay"), ("b", "buh"), ("c", "cuh"), ("d", "duh"), ("e", "ee"),
   ("f", "fuh"), ("g", "guh"), ("h", "heh"), ("i", "eye"), ("j", "juh"),
   ("k", "kuh"), ("l", "luh"), ("m", "muh"), ("n", "nuh"), ("o", "oh"),
   ("p", "puh"), ("q", "koo"), ("r", "ruh"), ("s", "suh"), ("t", "tuh"),
   ("u", "oo"), ("v", "vuh"), ("w", "wuh"), ("x", "ex"), ("y", "yuh"),
   ("z", "zuh")]

/-- Line 77 of `main2.py`: strip all digit characters and lower-case. -/
def base_of (phoneme : String) : String :=
  String.mk ((phoneme.data.filter (fun c => !c.isDigit)).map Char.toLower)

/-- `azure_phoneme_to_text` of `main2.py` (lines 70-107). -/
def azure_phoneme_to_text (phoneme : String) : String :=
  let base := base_of phoneme
  let text := (mapping.lookup base).getD base
  if text.length = 1 then
    match single_letter_mapping.lookup text with
    | some v => v
    | none => text
  else text

/-- The set of phonemes the loop of `give_phoneme_feedback` drills: exactly
those whose score passes the `score < THRESHOLD` guard at line 153, in
arrival order. -/
def low_scores (phoneme_scores : List (String × ℚ)) (threshold : ℚ) :
    List (String × ℚ) :=
  phoneme_scores.filter (fun p => p.2 < threshold)

/-- The three prompts spoken for each drilled phoneme of a round (lines
154-160), concatenated in order over a list of phoneme-score pairs. -/
def drill_prompts : List (String × ℚ) → List String
  | [] => []
  | p :: rest =>
    [prompt "repeat_phoneme", azure_phoneme_to_text p.1,
     prompt "success_phoneme"] ++ drill_prompts rest

/-- `give_phoneme_feedback` of `main2.py` (lines 144-164): walk the score
mapping, counting and drilling every low-scoring phoneme (retry stem, the
translated phoneme, encouragement), then speak the all-correct prompt iff the
count stayed zero.  Returns the spoken prompts in order; the `word` argument
is unused, as in the source. -/
def give_phoneme_feedback (word : String) (phoneme_scores : List (String × ℚ))
    (threshold : ℚ) : List String :=
  let r := phoneme_scores.foldl (fun (acc : ℕ × List String) p =>
    if p.2 < threshold then
      let readable := azure_phoneme_to_text p.1
      (acc.1 + 1, acc.2 ++ [prompt "repeat_phoneme", readable,
                            prompt "success_phoneme"])
    else acc) (0, [])
  if r.1 = 0 then r.2 ++ [prompt "all_correct"] else r.2

/-- Lines 171-187 of `main2.py`: one iteration of the `while True` loop of
`main`, as a function of the assessment result.  A falsy result retries
immediately with no spoken output; otherwise feedback is spoken and the loop
breaks iff every score is at or above the threshold. -/
def main_step (target_word : String) (threshold : ℚ)
    (r : Option (List (String × ℚ))) : LoopStep :=
  if py_falsy r then LoopStep.retry
  else
    let scores := r.getD []
    LoopStep.feedback (give_phoneme_feedback target_word scores threshold)
      (scores.all (fun p => threshold ≤ p.2))

end Main2

section Helpers

theorem uint32_le_iff_toNat_le (a b : UInt32) : a ≤ b ↔ a.toNat ≤ b.toNat :=
  ⟨fun h => h, fun h => h⟩

/-- Lower-casing a character (as the embedded Python lower-casing does,
character by character) never turns a non-digit into a digit or back. -/
theorem toLower_isDigit (c : Char) : (Char.toLower c).isDigit = c.isDigit := by
  unfold Char.toLower
  simp only []
  split
  · rename_i h
    have h1 : 65 ≤ c.toNat := h.1
    have h2 : c.toNat ≤ 90 := h.2
    have hvalid : (c.toNat + 32).isValidChar := Or.inl (by omega)
    have hofnat : (Char.ofNat (c.toNat + 32)).toNat = c.toNat + 32 := by
      simp only [Char.ofNat, Char.toNat]
      split
      · rfl
      · rename_i hn
        exact absurd hvalid hn
    have hd1 : c.isDigit = false := by
      simp only [Char.isDigit, Bool.and_eq_false_iff]
      right
      simp only [decide_eq_false_iff_not]
      intro hle
      have h57 : c.toNat ≤ 57 := (uint32_le_iff_toNat_le _ _).mp hle
      omega
    have hd2 : (Char.ofNat (c.toNat + 32)).isDigit = false := by
      simp only [Char.isDigit, Bool.and_eq_false_iff]
      right
      simp only [decide_eq_false_iff_not]
      intro hle
      have h57 := (uint32_le_iff_toNat_le _ _).mp hle
      have hx : (Char.ofNat (c.toNat + 32)).val.toNat
          = (Char.ofNat (c.toNat + 32)).toNat := rfl
      have h57n : (57 : UInt32).toNat = 57 := rfl
      rw [hx, hofnat, h57n] at h57
      omega
    rw [hd1, hd2]
  · rfl

/-- A successful association-list lookup returns a pair of the list. -/
theorem mem_of_lookup_eq_some {α β : Type} [BEq α] [LawfulBEq α]
    {l : List (α × β)} {k : α} {v : β} (h : l.lookup k = some v) :
    (k, v) ∈ l := by
  obtain ⟨l1, l2, rfl, -⟩ := List.lookup_eq_some_iff.mp h
  simp

/-- The shared part of the two single-letter tables before the "h" entry. -/
def slm_front : List (String × String) :=
  [("a", "ay"), ("b", "buh"), ("c", "cuh"), ("d", "duh"), ("e", "ee"),
   ("f", "fuh"), ("g", "guh")]

/-- The shared part of the two single-letter tables after the "h" entry. -/
def slm_back : List (String × String) :=
  [("i", "eye"), ("j", "juh"), ("k", "kuh"), ("l", "luh"), ("m", "muh"),
   ("n", "nuh"), ("o", "oh"), ("p", "puh"), ("q", "koo"), ("r", "ruh"),
   ("s", "suh"), ("t", "tuh"), ("u", "oo"), ("v", "vuh"), ("w", "wuh"),
   ("x", "ex"), ("y", "yuh"), ("z", "zuh")]

theorem slm_decomp_main :
    Main.single_letter_mapping = slm_front ++ ("h", "huh") :: slm_back := rfl

theorem slm_decomp_main2 :
    Main2.single_letter_mapping = slm_front ++ ("h", "heh") :: slm_back := rfl

/-- The two single-letter tables agree on every key other than "h". -/
theorem slm_lookup_agree {k : String} (hk : k ≠ "h") :
    Main.single_letter_mapping.lookup k = Main2.single_letter_mapping.lookup k := by
  rw [slm_decomp_main, slm_decomp_main2, List.lookup_append, List.lookup_append]
  congr 1
  rw [List.lookup_cons, List.lookup_cons]
  have hb : (k == "h") = false := by
    simp [hk]
  rw [hb]

/-- The two single-letter tables have the same keys, so lookups succeed on
exactly the same inputs. -/
theorem slm_lookup_isSome_agree (k : String) :
    (Main.single_letter_mapping.lookup k).isSome
      = (Main2.single_letter_mapping.lookup k).isSome := by
  by_cases hk : k = "h"
  · subst hk
    rfl
  · rw [slm_lookup_agree hk]

/-- The only standard-table entry whose value is "h" is the one for "hh". -/
theorem mapping_value_h : ∀ p ∈ Main.mapping, p.2 = "h" → p.1 = "hh" := by
  decide

theorem mapping_main2_eq : Main2.mapping = Main.mapping := rfl

theorem base_of_main2_eq : Main2.base_of = Main.base_of := rfl

/-- The translator of main.py depends on its input only through the
digit-stripped lower-cased base. -/
theorem translate_congr_main {a b : String} (h : Main.base_of a = Main.base_of b) :
    Main.azure_phoneme_to_text a = Main.azure_phoneme_to_text b := by
  simp only [Main.azure_phoneme_to_text, h]

/-- The translator of main2.py depends on its input only through the
digit-stripped lower-cased base. -/
theorem translate_congr_main2 {a b : String} (h : Main2.base_of a = Main2.base_of b) :
    Main2.azure_phoneme_to_text a = Main2.azure_phoneme_to_text b := by
  simp only [Main2.azure_phoneme_to_text, h]

theorem drill_prompts_nil : Main2.drill_prompts [] = [] := rfl

theorem drill_prompts_cons (p : String × ℚ) (l : List (String × ℚ)) :
    Main2.drill_prompts (p :: l) =
      [Main2.prompt "repeat_phoneme", Main2.azure_phoneme_to_text p.1,
       Main2.prompt "success_phoneme"] ++ Main2.drill_prompts l := rfl

/-- The fold inside give_phoneme_feedback, for any starting accumulator:
it counts the low-scoring pairs and appends their drill prompts in order. -/
theorem give_fold (t : ℚ) :
    ∀ (scores : List (String × ℚ)) (n : ℕ) (acc : List String),
      List.foldl (fun (a : ℕ × List String) p =>
          if p.2 < t then
            (a.1 + 1, a.2 ++ [Main2.prompt "repeat_phoneme",
              Main2.azure_phoneme_to_text p.1, Main2.prompt "success_phoneme"])
          else a) (n, acc) scores =
        (n + (Main2.low_scores scores t).length,
         acc ++ Main2.drill_prompts (Main2.low_scores scores t)) := by
  intro scores
  induction scores with
  | nil =>
    intro n acc
    simp [Main2.low_scores, drill_prompts_nil]
  | cons p rest ih =>
    intro n acc
    by_cases hp : p.2 < t
    · have hl : Main2.low_scores (p :: rest) t = p :: Main2.low_scores rest t := by
        simp [Main2.low_scores, hp]
      simp only [List.foldl_cons, if_pos hp]
      rw [ih, hl, drill_prompts_cons]
      simp only [Prod.mk.injEq]
      constructor
      · simp only [List.length_cons]
        omega
      · simp [List.append_assoc]
    · have hl : Main2.low_scores (p :: rest) t = Main2.low_scores rest t := by
        simp [Main2.low_scores, hp]
      simp only [List.foldl_cons, if_neg hp]
      rw [ih, hl]

/-- Structure of give_phoneme_feedback: the drill prompts of the low-scoring
pairs in arrival order, with the all-correct prompt appended exactly when no
pair was low.  This ties the derived low_scores set to the loop guard of
lines 152-153 of main2.py. -/
theorem give_phoneme_feedback_eq (w : String) (scores : List (String × ℚ)) (t : ℚ) :
    Main2.give_phoneme_feedback w scores t =
      if (Main2.low_scores scores t).length = 0 then
        Main2.drill_prompts (Main2.low_scores scores t) ++ [Main2.prompt "all_correct"]
      else Main2.drill_prompts (Main2.low_scores scores t) := by
  simp only [Main2.give_phoneme_feedback]
  rw [give_fold t scores 0 []]
  simp

/-- The stripped lower-cased base never contains a digit character. -/
theorem base_of_all_not_digit (s : String) :
    ((Main.base_of s).data.all fun c => !c.isDigit) = true := by
  simp only [Main.base_of]
  rw [List.all_eq_true]
  intro c hc
  rw [List.mem_map] at hc
  obtain ⟨d, hd, rfl⟩ := hc
  rw [List.mem_filter] at hd
  rw [toLower_isDigit]
  exact hd.2

theorem mapping_values_not_digit :
    ∀ p ∈ Main.mapping, (p.2.data.all fun c => !c.isDigit) = true := by
  decide

theorem slm_values_not_digit_main :
    ∀ p ∈ Main.single_letter_mapping, (p.2.data.all fun c => !c.isDigit) = true := by
  decide

theorem slm_values_not_digit_main2 :
    ∀ p ∈ Main2.single_letter_mapping, (p.2.data.all fun c => !c.isDigit) = true := by
  decide

/-- Values delivered by a lookup into a digit-free table are digit-free. -/
theorem not_digit_of_table {l : List (String × String)}
    (hl : ∀ p ∈ l, (p.2.data.all fun c => !c.isDigit) = true)
    {k v : String} (h : l.lookup k = some v) :
    (v.data.all fun c => !c.isDigit) = true :=
  hl (k, v) (mem_of_lookup_eq_some h)

/-- The translator of main.py only ever returns the digit-free base or a
digit-free table value. -/
theorem translate_main_all_not_digit (s : String) :
    ((Main.azure_phoneme_to_text s).data.all fun c => !c.isDigit) = true := by
  have hbase := base_of_all_not_digit s
  simp only [Main.azure_phoneme_to_text]
  rcases hm : Main.mapping.lookup (Main.base_of s) with _ | v
  · simp only [hm, Option.getD_none]
    split
    · rcases hs : Main.single_letter_mapping.lookup (Main.base_of s) with _ | w
      · simp only [hs]
        exact hbase
      · simp only [hs]
        exact not_digit_of_table slm_values_not_digit_main hs
    · exact hbase
  · have hv := not_digit_of_table mapping_values_not_digit hm
    simp only [hm, Option.getD_some]
    split
    · rcases hs : Main.single_letter_mapping.lookup v with _ | w
      · simp only [hs]
        exact hv
      · simp only [hs]
        exact not_digit_of_table slm_values_not_digit_main hs
    · exact hv

/-- The translator of main2.py only ever returns the digit-free base or a
digit-free table value. -/
theorem translate_main2_all_not_digit (s : String) :
    ((Main2.azure_phoneme_to_text s).data.all fun c => !c.isDigit) = true := by
  have hbase := base_of_all_not_digit s
  simp only [Main2.azure_phoneme_to_text]
  rcases hm : Main2.mapping.lookup (Main2.base_of s) with _ | v
  · simp only [hm, Option.getD_none]
    split
    · rcases hs : Main2.single_letter_mapping.lookup (Main2.base_of s) with _ | w
      · simp only [hs]
        exact hbase
      · simp only [hs]
        exact not_digit_of_table slm_values_not_digit_main2 hs
    · exact hbase
  · have hv : (v.data.all fun c => !c.isDigit) = true := by
      rw [mapping_main2_eq] at hm
      exact not_digit_of_table mapping_values_not_digit hm
    simp only [hm, Option.getD_some]
    split
    · rcases hs : Main2.single_letter_mapping.lookup v with _ | w
      · simp only [hs]
        exact hv
      · simp only [hs]
        exact not_digit_of_table slm_values_not_digit_main2 hs
    · exact hv

end Helpers

/-- C1: a phoneme-score pair of a round belongs to the low-scoring set iff
its score is strictly below the threshold, under the guard of line 285 of
main.py and equally under the guard of line 153 of main2.py; equality with
the threshold is accepted (see the witness at threshold 80 with scores 80
and 79.9). -/
theorem C1_threshold_strict (scores : List (String × ℚ)) (t : ℚ)
    (ph : String) (sc : ℚ) (hmem : (ph, sc) ∈ scores) :
    ((ph, sc) ∈ Main.low_scores scores t ↔ sc < t) ∧
    ((ph, sc) ∈ Main2.low_scores scores t ↔ sc < t) := by
  constructor
  · simp [Main.low_scores, List.mem_filter, hmem]
  · simp [Main2.low_scores, List.mem_filter, hmem]

/-- Witness for C1: at threshold 80, a score of exactly 80 stays out of the
low-scoring set while 79.9 lands in it. -/
theorem C1_threshold_strict_witness :
    ("s1", (80 : ℚ)) ∉ Main.low_scores [("s1", 80), ("t1", 799/10)] 80 ∧
    ("t1", (799 : ℚ)/10) ∈ Main.low_scores [("s1", 80), ("t1", 799/10)] 80 := by
  have h1 := (C1_threshold_strict [("s1", 80), ("t1", 799/10)] 80 "s1" 80
    (by norm_num)).1
  have h2 := (C1_threshold_strict [("s1", 80), ("t1", 799/10)] 80 "t1" (799/10)
    (by norm_num)).1
  constructor
  · intro hmem
    have := h1.mp hmem
    norm_num at this
  · exact h2.mpr (by norm_num)

/-- C2: the word is accepted (the loop of either file breaks) iff the
low-scoring set of the round is empty, and in that case the round of main.py
emits exactly the one all-correct prompt with no drills and the feedback of
main2.py is exactly its one all-correct prompt while its loop condition
breaks. -/
theorem C2_accept_iff_low_empty (w : String) (t : ℚ) (scores : List (String × ℚ)) :
    ((Main.practice_round w scores t).done = true ↔ Main.low_scores scores t = []) ∧
    ((scores.all fun p => t ≤ p.2) = true ↔ Main2.low_scores scores t = []) ∧
    (Main.low_scores scores t = [] →
      Main.practice_round w scores t = ⟨[Main.prompt "all_correct"], true⟩) ∧
    (Main2.low_scores scores t = [] →
      Main2.give_phoneme_feedback w scores t = [Main2.prompt "all_correct"]) := by
  refine ⟨?_, ?_, ?_, ?_⟩
  · simp only [Main.practice_round]
    by_cases h : (Main.low_scores scores t).isEmpty
    · simp [h, List.isEmpty_iff.mp h]
    · rw [if_neg (by simp [h])]
      simp only []
      constructor
      · intro hfalse
        exact absurd hfalse (by simp)
      · intro hnil
        exact absurd hnil (by simpa [List.isEmpty_iff] using h)
  · rw [List.all_eq_true]
    constructor
    · intro h
      simp only [Main2.low_scores, List.filter_eq_nil_iff]
      intro p hp
      have := h p hp
      simp only [decide_eq_true_eq] at this ⊢
      exact not_lt.mpr this
    · intro h p hp
      have := List.filter_eq_nil_iff.mp h p hp
      simp only [decide_eq_true_eq] at this ⊢
      exact not_lt.mp this
  · intro h
    simp only [Main.practice_round]
    rw [if_pos (by simp [h])]
  · intro h
    rw [give_phoneme_feedback_eq, h]
    simp [drill_prompts_nil]

/-- Witness for C2: at threshold 80 with the single pair ("hh", 90) the round
of main.py speaks only the all-correct prompt and breaks, and the feedback of
main2.py is only its all-correct prompt. -/
theorem C2_accept_iff_low_empty_witness :
    Main.practice_round "hello" [("hh", 90)] 80
        = ⟨[Main.prompt "all_correct"], true⟩ ∧
    Main2.give_phoneme_feedback "hello" [("hh", 90)] 80
        = [Main2.prompt "all_correct"] := by
  have h := C2_accept_iff_low_empty "hello" 80 [("hh", 90)]
  exact ⟨h.2.2.1 (by norm_num [Main.low_scores]),
         h.2.2.2 (by norm_num [Main2.low_scores])⟩

/-- C3: on the end-to-end scenario with scores hh:60, eh:95, l:40, ow:90 at
threshold 80 the low-scoring set is hh then l in arrival order, the word is
not accepted, and the round of main.py drills huh then luh (practice prompt,
your-turn prompt, encouragement each) before prompting the whole word and
falling back to assessment; in general the low-scoring set is a sublist of
the input mapping, so it always keeps arrival order. -/
theorem C3_end_to_end :
    Main.low_scores [("hh", 60), ("eh", 95), ("l", 40), ("ow", 90)] 80
        = [("hh", 60), ("l", 40)] ∧
    Main.practice_round "hello" [("hh", 60), ("eh", 95), ("l", 40), ("ow", 90)] 80 =
      ⟨["Let\x27s practice the sound huh.", "Your turn: huh", "Nice! Much better!",
        "Let\x27s practice the sound luh.", "Your turn: luh", "Nice! Much better!",
        "Now try saying the whole word: hello"], false⟩ ∧
    (∀ (scores : List (String × ℚ)) (t : ℚ),
      List.Sublist (Main.low_scores scores t) scores) := by
  refine ⟨by decide, by decide, ?_⟩
  intro scores t
  exact List.filter_sublist scores

/-- Counterexample to C4 as stated: the base "c" of the symbol "c1" is not a
key of the standard table, yet the translator does not return it unchanged —
the single-letter table expands it to "cuh". -/
theorem C4_counterexample :
    Main.base_of "c1" = "c" ∧
    Main.mapping.lookup (Main.base_of "c1") = none ∧
    Main.azure_phoneme_to_text "c1" = "cuh" ∧
    Main2.azure_phoneme_to_text "c1" = "cuh" ∧
    Main.azure_phoneme_to_text "c1" ≠ Main.base_of "c1" := by
  refine ⟨rfl, rfl, rfl, rfl, by decide⟩

/-- C4 amended: the translator is total by construction, and a symbol whose
digit-stripped lower-cased base is not a key of the standard table comes back
unchanged unless that base is a single letter that is itself a key of the
single-letter table (then the expansion of that table is returned instead). -/
theorem C4_unknown_fallback (s : String)
    (h1 : Main.mapping.lookup (Main.base_of s) = none)
    (h2 : ¬((Main.base_of s).length = 1 ∧
      (Main.single_letter_mapping.lookup (Main.base_of s)).isSome = true)) :
    Main.azure_phoneme_to_text s = Main.base_of s ∧
    Main2.azure_phoneme_to_text s = Main2.base_of s := by
  have h1b : Main2.mapping.lookup (Main2.base_of s) = none := by
    rw [mapping_main2_eq, base_of_main2_eq]
    exact h1
  have h2b : ¬((Main2.base_of s).length = 1 ∧
      (Main2.single_letter_mapping.lookup (Main2.base_of s)).isSome = true) := by
    rw [base_of_main2_eq, ← slm_lookup_isSome_agree]
    exact h2
  constructor
  · simp only [Main.azure_phoneme_to_text, h1, Option.getD_none]
    split
    · rename_i hlen
      rcases hs : Main.single_letter_mapping.lookup (Main.base_of s) with _ | v
      · simp only [hs]
      · exact absurd ⟨hlen, by rw [hs]; rfl⟩ h2
    · rfl
  · simp only [Main2.azure_phoneme_to_text, h1b, Option.getD_none]
    split
    · rename_i hlen
      rcases hs : Main2.single_letter_mapping.lookup (Main2.base_of s) with _ | v
      · simp only [hs]
      · exact absurd ⟨hlen, by rw [hs]; rfl⟩ h2b
    · rfl

/-- Witness for the amended C4: "zzq2" strips to the unknown base "zzq" and
both translators return it unchanged. -/
theorem C4_unknown_fallback_witness :
    Main.azure_phoneme_to_text "zzq2" = Main.base_of "zzq2" ∧
    Main2.azure_phoneme_to_text "zzq2" = Main2.base_of "zzq2" :=
  C4_unknown_fallback "zzq2" (by decide) (by decide)

/-- C5: appending any sequence of digit characters to a symbol does not
change the output of either translator, since the base strips all digits. -/
theorem C5_digit_suffix (s d : String) (hd : ∀ c ∈ d.data, c.isDigit = true) :
    Main.azure_phoneme_to_text (s ++ d) = Main.azure_phoneme_to_text s ∧
    Main2.azure_phoneme_to_text (s ++ d) = Main2.azure_phoneme_to_text s := by
  have hbase : Main.base_of (s ++ d) = Main.base_of s := by
    simp only [Main.base_of]
    have hdata : (s ++ d).data = s.data ++ d.data := rfl
    rw [hdata, List.filter_append]
    have hnil : d.data.filter (fun c => !c.isDigit) = [] := by
      rw [List.filter_eq_nil_iff]
      intro c hc
      simp [hd c hc]
    rw [hnil, List.append_nil]
  exact ⟨translate_congr_main hbase, translate_congr_main2 hbase⟩

/-- Witness for C5: appending the digit sequence "02" to "ah" leaves both
translator outputs unchanged. -/
theorem C5_digit_suffix_witness :
    Main.azure_phoneme_to_text ("ah" ++ "02") = Main.azure_phoneme_to_text "ah" ∧
    Main2.azure_phoneme_to_text ("ah" ++ "02") = Main2.azure_phoneme_to_text "ah" :=
  C5_digit_suffix "ah" "02" (by decide)

/-- C6: "g1" strips to "g", the standard table keeps it at the single letter
"g", and the single-letter table expands it to "guh", in both files; and any
symbol whose standard-table result has more than one letter skips the second
pass and keeps that result. -/
theorem C6_single_letter_expansion :
    Main.azure_phoneme_to_text "g1" = "guh" ∧
    Main2.azure_phoneme_to_text "g1" = "guh" ∧
    (∀ s : String,
      1 < ((Main.mapping.lookup (Main.base_of s)).getD (Main.base_of s)).length →
      Main.azure_phoneme_to_text s
        = (Main.mapping.lookup (Main.base_of s)).getD (Main.base_of s)) ∧
    (∀ s : String,
      1 < ((Main2.mapping.lookup (Main2.base_of s)).getD (Main2.base_of s)).length →
      Main2.azure_phoneme_to_text s
        = (Main2.mapping.lookup (Main2.base_of s)).getD (Main2.base_of s)) := by
  refine ⟨rfl, rfl, ?_, ?_⟩
  · intro s hlen
    simp only [Main.azure_phoneme_to_text]
    rw [if_neg (by omega)]
  · intro s hlen
    simp only [Main2.azure_phoneme_to_text]
    rw [if_neg (by omega)]

/-- Witness for C6: "aa" maps to the two-letter "ah", which is kept as is. -/
theorem C6_single_letter_expansion_witness :
    Main.azure_phoneme_to_text "aa"
      = (Main.mapping.lookup (Main.base_of "aa")).getD (Main.base_of "aa") :=
  C6_single_letter_expansion.2.2.1 "aa" (by decide)

/-- C7: both loops treat an absent assessment result and a present-but-empty
score mapping identically, retrying at once with no spoken prompt and no
evaluation. -/
theorem C7_retry_on_falsy (w : String) (t : ℚ) :
    Main.practice_word_step w t none = Main.practice_word_step w t (some []) ∧
    Main.practice_word_step w t none = LoopStep.retry ∧
    Main2.main_step w t none = Main2.main_step w t (some []) ∧
    Main2.main_step w t none = LoopStep.retry :=
  ⟨rfl, rfl, rfl, rfl⟩

/-- Counterexample to C8 as stated: the two translators disagree on "hh",
whose base maps to the single letter "h" — main.py expands it to "huh",
main2.py to "heh". -/
theorem C8_counterexample :
    Main.azure_phoneme_to_text "hh" = "huh" ∧
    Main2.azure_phoneme_to_text "hh" = "heh" ∧
    Main.azure_phoneme_to_text "hh" ≠ Main2.azure_phoneme_to_text "hh" := by
  refine ⟨rfl, rfl, by decide⟩

/-- C8 amended: the two translators agree on every symbol except those whose
digit-stripped lower-cased base is "h" or "hh" (exactly the inputs whose
intermediate text is the single letter "h", where the single-letter tables
differ: "huh" in main.py against "heh" in main2.py). -/
theorem C8_translators_agree (s : String)
    (h1 : Main.base_of s ≠ "h") (h2 : Main.base_of s ≠ "hh") :
    Main.azure_phoneme_to_text s = Main2.azure_phoneme_to_text s := by
  simp only [Main.azure_phoneme_to_text, Main2.azure_phoneme_to_text,
    base_of_main2_eq, mapping_main2_eq]
  set b := Main.base_of s with hb
  set t := (Main.mapping.lookup b).getD b with ht
  have htne : t ≠ "h" := by
    rcases hl : Main.mapping.lookup b with _ | v
    · rw [ht, hl]
      exact h1
    · rw [ht, hl]
      intro hth
      simp only [Option.getD_some] at hth
      have hmem := mem_of_lookup_eq_some hl
      exact h2 (mapping_value_h (b, v) hmem hth)
  split
  · rw [slm_lookup_agree htne]
  · rfl

/-- Witness for the amended C8: the symbol "ow1" has base "ow" and both
translators send it to the same output. -/
theorem C8_translators_agree_witness :
    Main.azure_phoneme_to_text "ow1" = Main2.azure_phoneme_to_text "ow1" :=
  C8_translators_agree "ow1" (by decide) (by decide)

/-- C9: no translator output ever contains a digit character — digits are
stripped from the base and every table value is digit-free. -/
theorem C9_output_digit_free (s : String) :
    ((Main.azure_phoneme_to_text s).data.all fun c => !c.isDigit) = true ∧
    ((Main2.azure_phoneme_to_text s).data.all fun c => !c.isDigit) = true :=
  ⟨translate_main_all_not_digit s, translate_main2_all_not_digit s⟩

/-- C10: a symbol made only of digit characters (the empty symbol included)
strips to the empty base, matches no table, and translates to the empty
string in both files. -/
theorem C10_all_digit_symbol (s : String) (h : ∀ c ∈ s.data, c.isDigit = true) :
    Main.azure_phoneme_to_text s = "" ∧ Main2.azure_phoneme_to_text s = "" := by
  have hbase : Main.base_of s = Main.base_of "" := by
    simp only [Main.base_of]
    have hnil : s.data.filter (fun c => !c.isDigit) = [] := by
      rw [List.filter_eq_nil_iff]
      intro c hc
      simp [h c hc]
    rw [hnil]
    rfl
  constructor
  · rw [translate_congr_main hbase]
    rfl
  · rw [translate_congr_main2 hbase]
    rfl

/-- Witness for C10: the all-digit symbol "120" translates to the empty
string in both files. -/
theorem C10_all_digit_symbol_witness :
    Main.azure_phoneme_to_text "120" = "" ∧ Main2.azure_phoneme_to_text "120" = "" :=
  C10_all_digit_symbol "120" (by decide)
